import Mathlib

/-!
Verification of the image-analysis web backend (`src/app.py`).

The program is a Flask app with one interesting route, `POST /analizar`:
it reads the JSON body, takes the `image` field (a data URL), splits on
commas and takes element 1, base64-decodes that segment, opens the bytes
as a PIL image, sends the image together with a fixed prompt to the
Gemini model, and returns the generated text as
`200 {"descripcion": text, "status": "success"}`.  Any exception is
caught, printed, and turned into `500 {"error": msg, "status": "error"}`.

The external collaborators (PIL `Image.open`, the Gemini
`model.generate_content` call) are parameters of the embedding:
`imageOpen : PyBytes → Except String α` and
`generateContent : String → α → Except String String`.  The Python
standard-library functions the handler relies on (`str.split`,
`base64.b64decode` with its default lenient validation) are modelled
concretely below, following CPython semantics.
-/

/-- Python `bytes` are modelled as lists of naturals below 256. -/
abbrev PyBytes := List Nat

/-- Value of a character in the standard base64 alphabet
(CPython `table_a2b_base64`); `none` for characters outside it. -/
def b64Val (c : Char) : Option Nat :=
  if 'A' ≤ c ∧ c ≤ 'Z' then some (c.toNat - 65)
  else if 'a' ≤ c ∧ c ≤ 'z' then some (c.toNat - 97 + 26)
  else if '0' ≤ c ∧ c ≤ '9' then some (c.toNat - 48 + 52)
  else if c = '+' then some 62
  else if c = '/' then some 63
  else none

/-- The loop of CPython `binascii.a2b_base64` in non-strict mode (the mode
`base64.b64decode` uses by default): characters outside the alphabet are
skipped; `=` only counts as padding once two data characters of the current
quadruple have been seen, and a completed pad sequence ends decoding,
ignoring the rest of the input.  Arguments: remaining input, `quad_pos`,
`leftchar`, `pads`, count of data characters seen, output accumulator
(reversed). -/
def a2bBase64Loop : List Char → Nat → Nat → Nat → Nat → PyBytes →
    Except String PyBytes
  | [], quadPos, _, _, count, acc =>
    if quadPos = 0 then .ok acc.reverse
    else if quadPos = 1 then
      .error ("Invalid base64-encoded string: number of data characters (" ++
        toString count ++ ") cannot be 1 more than a multiple of 4")
    else .error "Incorrect padding"
  | c :: rest, quadPos, leftChar, pads, count, acc =>
    if c = '=' then
      if 2 ≤ quadPos then
        if 4 ≤ quadPos + (pads + 1) then .ok acc.reverse
        else a2bBase64Loop rest quadPos leftChar (pads + 1) count acc
      else a2bBase64Loop rest quadPos leftChar pads count acc
    else
      match b64Val c with
      | none => a2bBase64Loop rest quadPos leftChar pads count acc
      | some v =>
        match quadPos with
        | 0 => a2bBase64Loop rest 1 v 0 (count + 1) acc
        | 1 => a2bBase64Loop rest 2 (v % 16) 0 (count + 1)
            ((leftChar * 4 + v / 16) :: acc)
        | 2 => a2bBase64Loop rest 3 (v % 4) 0 (count + 1)
            ((leftChar * 16 + v / 4) :: acc)
        | _ => a2bBase64Loop rest 0 0 0 (count + 1)
            ((leftChar * 64 + v) :: acc)

/-- Python `base64.b64decode(s)` on a `str` argument with the default
`validate=False`: the string must be pure ASCII (else `ValueError`),
then the lenient `binascii.a2b_base64` loop runs. -/
def b64decode (s : String) : Except String PyBytes :=
  if s.data.any (fun c => 127 < c.toNat) then
    .error "string argument should contain only ASCII characters"
  else a2bBase64Loop s.data 0 0 0 0 []

/-- Python `str.split(sep)` for a one-character separator, on character
lists: `[] ↦ [[]]`, and each separator occurrence starts a new piece. -/
def splitCharsOn (sep : Char) : List Char → List (List Char)
  | [] => [[]]
  | c :: rest =>
    if c = sep then [] :: splitCharsOn sep rest
    else
      match splitCharsOn sep rest with
      | [] => [[c]]
      | p :: ps => (c :: p) :: ps

/-- Python `s.split(sep)` for a one-character separator, on strings. -/
def pySplit (s : String) (sep : Char) : List String :=
  (splitCharsOn sep s.data).map String.mk

/-- The fixed prompt passed to `model.generate_content` in `analizar_imagen`
(`src/app.py` line 40). -/
def PROMPT : String :=
  "Describe detalladamente lo que ves en esta imagen en español, usando texto plano sin usar caracteres especiales y de manera clara para que pueda ser leído en voz alta"

/-- The function `analizar_imagen(imagen_bytes)` (`src/app.py` lines 31-45):
`img = Image.open(io.BytesIO(imagen_bytes))`, then
`response = model.generate_content([PROMPT, img])`, returning
`response.text`.  `imageOpen` stands for PIL `Image.open` (failing with a
format error on bytes that are not a supported raster image) and
`generateContent` for the Gemini call; either failure propagates to the
caller as the exception message. -/
def analizar_imagen {α : Type} (imageOpen : PyBytes → Except String α)
    (generateContent : String → α → Except String String)
    (imagen_bytes : PyBytes) : Except String String :=
  match imageOpen imagen_bytes with
  | .error e => .error e
  | .ok img => generateContent PROMPT img

/-- The body of the `try` block of `analizar` (`src/app.py` lines 75-103):
`data = request.json` (a JSON object modelled as an association list, or
`none` for JSON `null`), `image_data = data[\x27image\x27]`,
`image_base64 = image_data.split(\x27,\x27)[1]`,
`image_bytes = base64.b64decode(image_base64)`,
`descripcion = analizar_imagen(image_bytes)`.  Each step that raises in
Python is an `Except.error` carrying the Python exception message. -/
def analizarPipeline {α : Type} (imageOpen : PyBytes → Except String α)
    (generateContent : String → α → Except String String)
    (requestJson : Option (List (String × String))) : Except String String :=
  match requestJson with
  | none => .error "\x27NoneType\x27 object is not subscriptable"
  | some data =>
    match data.lookup "image" with
    | none => .error "\x27image\x27"
    | some image_data =>
      match (pySplit image_data ',').get? 1 with
      | none => .error "list index out of range"
      | some image_base64 =>
        match b64decode image_base64 with
        | .error e => .error e
        | .ok image_bytes =>
          analizar_imagen imageOpen generateContent image_bytes

/-- An HTTP response: status code and JSON body.  Every body the handler
produces maps string keys to string values, so the body is an association
list of strings (in the key order `jsonify` emits). -/
structure HttpResponse where
  code : Nat
  body : List (String × String)
  deriving DecidableEq, Repr

/-- The `analizar` route handler (`src/app.py` lines 62-112): runs the
pipeline inside `try`; on success returns
`200 {"descripcion": d, "status": "success"}`; on any exception returns
`500 {"error": str(e), "status": "error"}` and prints
`Error: {str(e)}` to the console (second component: the log lines). -/
def analizar {α : Type} (imageOpen : PyBytes → Except String α)
    (generateContent : String → α → Except String String)
    (requestJson : Option (List (String × String))) :
    HttpResponse × List String :=
  match analizarPipeline imageOpen generateContent requestJson with
  | .ok descripcion =>
    (⟨200, [("descripcion", descripcion), ("status", "success")]⟩, [])
  | .error e =>
    (⟨500, [("error", e), ("status", "error")]⟩, ["Error: " ++ e])

/-- Modelled from the spec: "Extract the substring after the first comma"
— everything after the first comma of the string, `none` when there is no
comma.  (This is the claimed behaviour, to be compared with what the code
actually passes on.) -/
def afterFirstCommaChars : List Char → Option (List Char)
  | [] => none
  | c :: rest => if c = ',' then some rest else afterFirstCommaChars rest

/-- Modelled from the spec: the substring of `s` after its first comma. -/
def substringAfterFirstComma (s : String) : Option String :=
  (afterFirstCommaChars s.data).map String.mk

/-- The segment the handler passes to `base64.b64decode`:
`image_data.split(\x27,\x27)[1]` (`src/app.py` line 87), `none` when
indexing raises. -/
def segmentPassedToDecoder (s : String) : Option String :=
  (pySplit s ',').get? 1

/-- Modelled from the spec: a "valid base64" string in the strict
(RFC 4648) sense — base64-alphabet characters, at most two `=` of padding
at the end, length a multiple of four. -/
def isValidBase64 (s : String) : Bool :=
  let body := s.data.takeWhile (fun c => (b64Val c).isSome)
  let pad := s.data.drop body.length
  pad.all (fun c => c == '=') && decide (pad.length ≤ 2) &&
    (s.data.length % 4 == 0)

/-- The 70 bytes of a well-formed 1x1 PNG image (a file every supported
raster-image decoder, PIL included, opens successfully). -/
def pngBytes : PyBytes :=
  [137, 80, 78, 71, 13, 10, 26, 10, 0, 0, 0, 13, 73, 72, 68, 82, 0, 0, 0,
   1, 0, 0, 0, 1, 8, 6, 0, 0, 0, 31, 21, 196, 137, 0, 0, 0, 13, 73, 68,
   65, 84, 120, 218, 99, 252, 207, 192, 80, 15, 0, 4, 133, 1, 128, 132,
   169, 140, 33, 0, 0, 0, 0, 73, 69, 78, 68, 174, 66, 96, 130]

/-- The standard base64 encoding of `pngBytes`. -/
def pngB64 : String :=
  "iVBORw0KGgoAAAANSUhEUgAAAAEAAAABCAYAAAAfFcSJAAAADUlEQVR42mP8z8BQDwAEhQGAhKmMIQAAAABJRU5ErkJggg=="

/-- A faithful stand-in for PIL `Image.open` on the byte strings used in
the concrete scenarios below: it accepts exactly the well-formed PNG
`pngBytes` (which the real PIL opens) and fails with the PIL
`UnidentifiedImageError` message on everything else (the real PIL rejects
the other byte strings used here, none of which is a valid image file). -/
def stubImageOpen : PyBytes → Except String Unit := fun bs =>
  if bs = pngBytes then .ok () else .error "cannot identify image file"

/-- A deterministic stub for the Gemini `generate_content` call, returning
the fixed text used in the spec scenario. -/
def stubGenerate : String → Unit → Except String String :=
  fun _ _ => .ok "Una persona sonriendo"

/-! ### Properties of the Python splitting primitive -/

/-- Splitting never returns an empty list of pieces. -/
theorem splitCharsOn_ne_nil (sep : Char) :
    ∀ l : List Char, splitCharsOn sep l ≠ []
  | [] => by simp [splitCharsOn]
  | c :: rest => by
    unfold splitCharsOn
    by_cases h : c = sep
    · simp [h]
    · simp only [h, if_false]
      cases hs : splitCharsOn sep rest <;> simp

/-- Splitting a separator-free list yields that list as the only piece. -/
theorem splitCharsOn_of_not_mem (sep : Char) :
    ∀ l : List Char, sep ∉ l → splitCharsOn sep l = [l]
  | [], _ => rfl
  | c :: rest, h => by
    have hc : ¬c = sep := fun he => h (he ▸ List.mem_cons_self c rest)
    have hr : sep ∉ rest := fun hm => h (List.mem_cons_of_mem c hm)
    unfold splitCharsOn
    simp only [hc, if_false, splitCharsOn_of_not_mem sep rest hr]

/-- Splitting across the first separator occurrence: the piece before it,
then the splitting of the remainder. -/
theorem splitCharsOn_append (sep : Char) :
    ∀ a b : List Char, sep ∉ a →
      splitCharsOn sep (a ++ sep :: b) = a :: splitCharsOn sep b
  | [], b, _ => by simp [splitCharsOn]
  | c :: a, b, h => by
    have hc : ¬c = sep := fun he => h (he ▸ List.mem_cons_self c a)
    have ha : sep ∉ a := fun hm => h (List.mem_cons_of_mem c hm)
    have ih := splitCharsOn_append sep a b ha
    show splitCharsOn sep (c :: (a ++ sep :: b)) = (c :: a) :: splitCharsOn sep b
    rw [splitCharsOn, if_neg hc, ih]

/-- The first piece of a split is the longest separator-free head. -/
theorem splitCharsOn_head (sep : Char) :
    ∀ l : List Char,
      (splitCharsOn sep l).head? = some (l.takeWhile (fun c => c != sep))
  | [] => rfl
  | c :: rest => by
    unfold splitCharsOn
    by_cases h : c = sep
    · simp [h, List.takeWhile_cons]
    · simp only [h, if_false]
      cases hs : splitCharsOn sep rest with
      | nil => exact absurd hs (splitCharsOn_ne_nil sep rest)
      | cons p ps =>
        have hh := splitCharsOn_head sep rest
        rw [hs] at hh
        simp only [List.head?_cons, Option.some.injEq] at hh
        simp [List.takeWhile_cons, h, hh]

/-- Splitting an explicitly built string, in terms of `splitCharsOn`. -/
theorem pySplit_mk (l : List Char) (sep : Char) :
    pySplit (String.mk l) sep = (splitCharsOn sep l).map String.mk := rfl

/-! ### Evaluation helpers for the handler -/

/-- Under a well-split `image` field (`meta`, one comma, comma-free
`payload`), the pipeline reduces to base64-decoding the payload and
analysing the bytes. -/
theorem pipeline_eval_aux {α : Type} (imageOpen : PyBytes → Except String α)
    (generateContent : String → α → Except String String)
    (data : List (String × String)) (meta payload : List Char)
    (hlookup : data.lookup "image" = some (String.mk (meta ++ ',' :: payload)))
    (hm : ',' ∉ meta) (hp : ',' ∉ payload) :
    analizarPipeline imageOpen generateContent (some data) =
      match b64decode (String.mk payload) with
      | .error e => .error e
      | .ok image_bytes => analizar_imagen imageOpen generateContent image_bytes := by
  have hsplit : pySplit (String.mk (meta ++ ',' :: payload)) ',' =
      [String.mk meta, String.mk payload] := by
    rw [pySplit_mk, splitCharsOn_append ',' meta payload hm,
      splitCharsOn_of_not_mem ',' payload hp]
    rfl
  simp only [analizarPipeline, hlookup, hsplit, List.get?]

/-- An `image` field with no comma makes the pipeline fail with the
`IndexError` of `split(\x27,\x27)[1]`. -/
theorem no_comma_error_aux {α : Type} (imageOpen : PyBytes → Except String α)
    (generateContent : String → α → Except String String)
    (data : List (String × String)) (s : String)
    (hlookup : data.lookup "image" = some s) (hnc : ',' ∉ s.data) :
    analizar imageOpen generateContent (some data) =
      (⟨500, [("error", "list index out of range"), ("status", "error")]⟩,
       ["Error: list index out of range"]) := by
  have hsplit : pySplit s ',' = [String.mk s.data] := by
    unfold pySplit
    rw [splitCharsOn_of_not_mem ',' s.data hnc]
    rfl
  simp only [analizar, analizarPipeline, hlookup, hsplit, List.get?]
  rfl

/-- For any `image` string with at least one comma (written as a
comma-free `meta`, the first comma, then an arbitrary remainder `rest`),
element 1 of the split is the piece of `rest` before the next comma or
the end of the string. -/
theorem segment_eval_aux (meta rest : List Char) (hm : ',' ∉ meta) :
    (pySplit (String.mk (meta ++ ',' :: rest)) ',').get? 1 =
      some (String.mk (rest.takeWhile (fun c => c != ','))) := by
  rw [pySplit_mk, splitCharsOn_append ',' meta rest hm]
  cases hs : splitCharsOn ',' rest with
  | nil => exact absurd hs (splitCharsOn_ne_nil ',' rest)
  | cons p ps =>
    have hh := splitCharsOn_head ',' rest
    rw [hs] at hh
    simp only [List.head?_cons, Option.some.injEq] at hh
    rw [← hh]
    rfl

/-- When every step succeeds — well-split data URL, decodable base64,
readable image, successful model call — the handler returns the success
envelope with the model text and logs nothing. -/
theorem success_response_aux {α : Type} (imageOpen : PyBytes → Except String α)
    (generateContent : String → α → Except String String)
    (data : List (String × String)) (meta payload : List Char)
    (bytes : PyBytes) (img : α) (text : String)
    (hlookup : data.lookup "image" = some (String.mk (meta ++ ',' :: payload)))
    (hm : ',' ∉ meta) (hp : ',' ∉ payload)
    (hb64 : b64decode (String.mk payload) = .ok bytes)
    (hopen : imageOpen bytes = .ok img)
    (hgen : generateContent PROMPT img = .ok text) :
    analizar imageOpen generateContent (some data) =
      (⟨200, [("descripcion", text), ("status", "success")]⟩, []) := by
  have hpipe := pipeline_eval_aux imageOpen generateContent data meta payload
    hlookup hm hp
  simp only [analizar, hpipe, hb64, analizar_imagen, hopen, hgen]

/-! ### Claim theorems -/

/-- C1: for every POST /analizar request whose `image` field is a data-URL
(metadata, one comma, a comma-free payload) whose payload base64-decodes,
whose bytes PIL opens, and with the model call returning text `text`, the
handler returns HTTP 200 with body
`{"descripcion": text, "status": "success"}` (and logs nothing). -/
theorem analizar_valid_request_success {α : Type}
    (imageOpen : PyBytes → Except String α)
    (generateContent : String → α → Except String String)
    (data : List (String × String)) (meta payload : List Char)
    (bytes : PyBytes) (img : α) (text : String)
    (hlookup : data.lookup "image" = some (String.mk (meta ++ ',' :: payload)))
    (hm : ',' ∉ meta) (hp : ',' ∉ payload)
    (hb64 : b64decode (String.mk payload) = .ok bytes)
    (hopen : imageOpen bytes = .ok img)
    (hgen : generateContent PROMPT img = .ok text) :
    analizar imageOpen generateContent (some data) =
      (⟨200, [("descripcion", text), ("status", "success")]⟩, []) :=
  success_response_aux imageOpen generateContent data meta payload bytes img
    text hlookup hm hp hb64 hopen hgen

/-- C1 witness: the concrete spec scenario — a PNG data URL, the stub
model answering "Una persona sonriendo" — produces
`200 {"descripcion": "Una persona sonriendo", "status": "success"}`. -/
theorem analizar_valid_request_success_witness :
    analizar stubImageOpen stubGenerate
        (some [("image",
          String.mk ("data:image/png;base64".data ++ ',' :: pngB64.data))]) =
      (⟨200, [("descripcion", "Una persona sonriendo"),
              ("status", "success")]⟩, []) :=
  analizar_valid_request_success stubImageOpen stubGenerate
    [("image", String.mk ("data:image/png;base64".data ++ ',' :: pngB64.data))]
    "data:image/png;base64".data pngB64.data pngBytes () "Una persona sonriendo"
    rfl (by decide) (by decide) (by rfl) rfl rfl

/-- C2: whenever any step of the handler raises — missing `image` field,
malformed base64, unreadable image bytes, a failing model call, all of
which surface as `analizarPipeline ... = .error e` — the handler returns
HTTP 500 with body `{"error": e, "status": "error"}` and logs
`Error: e`; the exception never propagates (the handler is a total
function into `HttpResponse × List String`). -/
theorem analizar_exception_envelope {α : Type}
    (imageOpen : PyBytes → Except String α)
    (generateContent : String → α → Except String String)
    (requestJson : Option (List (String × String))) (e : String)
    (herr : analizarPipeline imageOpen generateContent requestJson = .error e) :
    analizar imageOpen generateContent requestJson =
      (⟨500, [("error", e), ("status", "error")]⟩, ["Error: " ++ e]) := by
  simp only [analizar, herr]

/-- C2 witness: a request with JSON body `null` (no fields at all) yields
the 500 error envelope carrying the Python `TypeError` message. -/
theorem analizar_exception_envelope_witness :
    analizar stubImageOpen stubGenerate none =
      (⟨500, [("error", "\x27NoneType\x27 object is not subscriptable"),
              ("status", "error")]⟩,
       ["Error: \x27NoneType\x27 object is not subscriptable"]) :=
  analizar_exception_envelope stubImageOpen stubGenerate none
    "\x27NoneType\x27 object is not subscriptable" rfl

/-- C6: for every request whose `image` field contains no comma at all,
the handler returns HTTP 500 with status "error" (the `IndexError` of
`split(\x27,\x27)[1]`). -/
theorem analizar_no_comma_error {α : Type}
    (imageOpen : PyBytes → Except String α)
    (generateContent : String → α → Except String String)
    (data : List (String × String)) (s : String)
    (hlookup : data.lookup "image" = some s) (hnc : ',' ∉ s.data) :
    analizar imageOpen generateContent (some data) =
      (⟨500, [("error", "list index out of range"), ("status", "error")]⟩,
       ["Error: list index out of range"]) :=
  no_comma_error_aux imageOpen generateContent data s hlookup hnc

/-- C6 witness: the spec scenario `{"image": "not-a-data-url"}` yields the
500 error envelope. -/
theorem analizar_no_comma_error_witness :
    analizar stubImageOpen stubGenerate (some [("image", "not-a-data-url")]) =
      (⟨500, [("error", "list index out of range"), ("status", "error")]⟩,
       ["Error: list index out of range"]) :=
  analizar_no_comma_error stubImageOpen stubGenerate
    [("image", "not-a-data-url")] "not-a-data-url" rfl (by decide)

/-- C3 counterexample: an `image` string containing two commas is NOT
rejected — `split(\x27,\x27)[1]` takes the segment between the first and
second commas, here a well-formed PNG payload, and the handler answers
200 success.  (`stubImageOpen` accepts exactly the well-formed PNG bytes,
as the real PIL does.) -/
theorem analizar_two_commas_accepted :
    ("data:image/png;base64," ++ pngB64 ++ ",extra").data.count ',' = 2 ∧
    analizar stubImageOpen stubGenerate
        (some [("image", "data:image/png;base64," ++ pngB64 ++ ",extra")]) =
      (⟨200, [("descripcion", "Una persona sonriendo"),
              ("status", "success")]⟩, []) :=
  ⟨by decide, by rfl⟩

/-- C3 amended: an `image` string with no comma always produces the 500
error outcome, but a string with two or more commas is not necessarily
rejected — the handler proceeds with the segment between the first and
second commas, which can succeed end to end. -/
theorem analizar_comma_count_behavior :
    (∀ (α : Type) (imageOpen : PyBytes → Except String α)
      (generateContent : String → α → Except String String)
      (data : List (String × String)) (s : String),
      data.lookup "image" = some s → ',' ∉ s.data →
      analizar imageOpen generateContent (some data) =
        (⟨500, [("error", "list index out of range"), ("status", "error")]⟩,
         ["Error: list index out of range"])) ∧
    analizar stubImageOpen stubGenerate
        (some [("image", "data:image/png;base64," ++ pngB64 ++ ",extra")]) =
      (⟨200, [("descripcion", "Una persona sonriendo"),
              ("status", "success")]⟩, []) :=
  ⟨fun _ imageOpen generateContent data s h1 h2 =>
    no_comma_error_aux imageOpen generateContent data s h1 h2, by rfl⟩

/-- C3 witness: the amended zero-comma half at the concrete input
`{"image": "abc"}`. -/
theorem analizar_comma_count_behavior_witness :
    analizar stubImageOpen stubGenerate (some [("image", "abc")]) =
      (⟨500, [("error", "list index out of range"), ("status", "error")]⟩,
       ["Error: list index out of range"]) :=
  analizar_comma_count_behavior.1 Unit stubImageOpen stubGenerate
    [("image", "abc")] "abc" rfl (by decide)

/-- C4 counterexample: on `"a,b,c"` the handler passes `"b"` to the
base64 decoder, not the whole substring `"b,c"` after the first comma. -/
theorem segment_not_whole_suffix :
    segmentPassedToDecoder "a,b,c" = some "b" ∧
    substringAfterFirstComma "a,b,c" = some "b,c" ∧
    segmentPassedToDecoder "a,b,c" ≠ substringAfterFirstComma "a,b,c" :=
  ⟨rfl, rfl, by decide⟩

/-- C4 amended: for every image string containing at least one comma, the
segment passed to the base64 decoder is the substring strictly between
the first comma and the following comma (or the end of the string when
there is no second comma). -/
theorem segment_between_first_and_second_comma (meta rest : List Char)
    (hm : ',' ∉ meta) :
    segmentPassedToDecoder (String.mk (meta ++ ',' :: rest)) =
      some (String.mk (rest.takeWhile (fun c => c != ','))) :=
  segment_eval_aux meta rest hm

/-- C4 witness: the amended statement at `"a,b,c"` (so with
`meta = "a"`, `rest = "b,c"`): the decoder receives exactly `"b"`. -/
theorem segment_between_first_and_second_comma_witness :
    segmentPassedToDecoder (String.mk ("a".data ++ ',' :: "b,c".data)) =
      some "b" :=
  segment_between_first_and_second_comma "a".data "b,c".data (by decide)

/-- C5 counterexample: a payload that is not valid base64 in the strict
(RFC 4648) sense — a well-formed PNG encoding followed by `"!"` — is
nevertheless decoded successfully by the lenient Python decoder (which
discards characters outside the alphabet), so the base64 decoding step
does not fail, and the request as a whole returns 200 success rather
than 500. -/
theorem invalid_base64_payload_can_succeed :
    isValidBase64 (pngB64 ++ "!") = false ∧
    b64decode (pngB64 ++ "!") = .ok pngBytes ∧
    analizar stubImageOpen stubGenerate
        (some [("image", "data:image/png;base64," ++ pngB64 ++ "!")]) =
      (⟨200, [("descripcion", "Una persona sonriendo"),
              ("status", "success")]⟩, []) :=
  ⟨by decide, by rfl, by rfl⟩

/-- C5 amended: for every request whose `image` field contains at least
one comma (a comma-free `meta`, the first comma, then any remainder
`rest`), if the lenient Python base64 decoder (`b64decode`) rejects the
payload between the first and second commas (the piece of `rest` before
the next comma or the end), the handler returns HTTP 500 with status
"error". -/
theorem analizar_b64decode_failure_error {α : Type}
    (imageOpen : PyBytes → Except String α)
    (generateContent : String → α → Except String String)
    (data : List (String × String)) (meta rest : List Char) (e : String)
    (hlookup : data.lookup "image" = some (String.mk (meta ++ ',' :: rest)))
    (hm : ',' ∉ meta)
    (hb64 : b64decode (String.mk (rest.takeWhile (fun c => c != ','))) =
      .error e) :
    analizar imageOpen generateContent (some data) =
      (⟨500, [("error", e), ("status", "error")]⟩, ["Error: " ++ e]) := by
  have hseg := segment_eval_aux meta rest hm
  simp only [analizar, analizarPipeline, hlookup, hseg, hb64]

/-- C5 witness: on `"a,QQ,b"` the decoder receives `"QQ"`, which fails
with "Incorrect padding", and the handler returns the 500 envelope. -/
theorem analizar_b64decode_failure_error_witness :
    analizar stubImageOpen stubGenerate
        (some [("image", String.mk ("a".data ++ ',' :: "QQ,b".data))]) =
      (⟨500, [("error", "Incorrect padding"), ("status", "error")]⟩,
       ["Error: Incorrect padding"]) :=
  analizar_b64decode_failure_error stubImageOpen stubGenerate
    [("image", String.mk ("a".data ++ ',' :: "QQ,b".data))]
    "a".data "QQ,b".data "Incorrect padding"
    rfl (by decide) rfl

/-- C7: for every byte string that base64-decodes correctly but on which
the image-construction step (`Image.open`, the `imageOpen` parameter)
fails, `analizar_imagen` fails with that error and the handler returns
HTTP 500 with status "error". -/
theorem analizar_unreadable_image_error {α : Type}
    (imageOpen : PyBytes → Except String α)
    (generateContent : String → α → Except String String)
    (data : List (String × String)) (meta payload : List Char)
    (bytes : PyBytes) (e : String)
    (hlookup : data.lookup "image" = some (String.mk (meta ++ ',' :: payload)))
    (hm : ',' ∉ meta) (hp : ',' ∉ payload)
    (hb64 : b64decode (String.mk payload) = .ok bytes)
    (hopen : imageOpen bytes = .error e) :
    analizar_imagen imageOpen generateContent bytes = .error e ∧
    analizar imageOpen generateContent (some data) =
      (⟨500, [("error", e), ("status", "error")]⟩, ["Error: " ++ e]) := by
  have himg : analizar_imagen imageOpen generateContent bytes = .error e := by
    simp only [analizar_imagen, hopen]
  refine ⟨himg, ?_⟩
  have hpipe := pipeline_eval_aux imageOpen generateContent data meta payload
    hlookup hm hp
  simp only [analizar, hpipe, hb64, himg]

/-- C7 witness: the bytes `"ABC"` (valid base64 payload `"QUJD"`, not an
image file) make the image step fail and yield the 500 envelope. -/
theorem analizar_unreadable_image_error_witness :
    analizar_imagen stubImageOpen stubGenerate [65, 66, 67] =
      .error "cannot identify image file" ∧
    analizar stubImageOpen stubGenerate
        (some [("image",
          String.mk ("data:;base64".data ++ ',' :: "QUJD".data))]) =
      (⟨500, [("error", "cannot identify image file"), ("status", "error")]⟩,
       ["Error: cannot identify image file"]) :=
  analizar_unreadable_image_error stubImageOpen stubGenerate
    [("image", String.mk ("data:;base64".data ++ ',' :: "QUJD".data))]
    "data:;base64".data "QUJD".data [65, 66, 67] "cannot identify image file"
    rfl (by decide) (by decide) rfl rfl

/-- C8: whenever the model call succeeds with text `text`,
`analizar_imagen` returns exactly that text, and in the endpoint response
the `descripcion` value equals `text` with no modification (and the
status code is 200). -/
theorem descripcion_unmodified {α : Type}
    (imageOpen : PyBytes → Except String α)
    (generateContent : String → α → Except String String)
    (data : List (String × String)) (meta payload : List Char)
    (bytes : PyBytes) (img : α) (text : String)
    (hlookup : data.lookup "image" = some (String.mk (meta ++ ',' :: payload)))
    (hm : ',' ∉ meta) (hp : ',' ∉ payload)
    (hb64 : b64decode (String.mk payload) = .ok bytes)
    (hopen : imageOpen bytes = .ok img)
    (hgen : generateContent PROMPT img = .ok text) :
    analizar_imagen imageOpen generateContent bytes = .ok text ∧
    (analizar imageOpen generateContent (some data)).1.body.lookup
        "descripcion" = some text ∧
    (analizar imageOpen generateContent (some data)).1.code = 200 := by
  have himg : analizar_imagen imageOpen generateContent bytes = .ok text := by
    simp only [analizar_imagen, hopen]
    exact hgen
  have hresp := success_response_aux imageOpen generateContent data meta
    payload bytes img text hlookup hm hp hb64 hopen hgen
  exact ⟨himg, by rw [hresp]; rfl, by rw [hresp]⟩

/-- C8 witness: the stub model text "Una persona sonriendo" appears
verbatim as the `descripcion` value. -/
theorem descripcion_unmodified_witness :
    analizar_imagen stubImageOpen stubGenerate pngBytes =
      .ok "Una persona sonriendo" ∧
    (analizar stubImageOpen stubGenerate
        (some [("image",
          String.mk ("data:image/png;base64".data ++ ',' :: pngB64.data))])).1.body.lookup
        "descripcion" = some "Una persona sonriendo" ∧
    (analizar stubImageOpen stubGenerate
        (some [("image",
          String.mk ("data:image/png;base64".data ++ ',' :: pngB64.data))])).1.code = 200 :=
  descripcion_unmodified stubImageOpen stubGenerate
    [("image", String.mk ("data:image/png;base64".data ++ ',' :: pngB64.data))]
    "data:image/png;base64".data pngB64.data pngBytes () "Una persona sonriendo"
    rfl (by decide) (by decide) (by rfl) rfl rfl

/-- C9: the handler is a deterministic function of the request and the
external stubs — two runs on the identical request with extensionally
identical image and model stubs produce identical responses (status code,
body, and log). -/
theorem analizar_deterministic {α : Type}
    (imageOpen₁ imageOpen₂ : PyBytes → Except String α)
    (generateContent₁ generateContent₂ : String → α → Except String String)
    (requestJson : Option (List (String × String)))
    (hd : ∀ bs, imageOpen₁ bs = imageOpen₂ bs)
    (hg : ∀ p img, generateContent₁ p img = generateContent₂ p img) :
    analizar imageOpen₁ generateContent₁ requestJson =
      analizar imageOpen₂ generateContent₂ requestJson := by
  obtain rfl : imageOpen₁ = imageOpen₂ := funext hd
  obtain rfl : generateContent₁ = generateContent₂ :=
    funext fun p => funext fun img => hg p img
  rfl

/-- C9 witness: two runs on the identical concrete request with the same
deterministic stubs agree. -/
theorem analizar_deterministic_witness :
    analizar stubImageOpen stubGenerate (some [("image", "x")]) =
      analizar stubImageOpen stubGenerate (some [("image", "x")]) :=
  analizar_deterministic stubImageOpen stubImageOpen stubGenerate
    stubGenerate (some [("image", "x")]) (fun _ => rfl) (fun _ _ => rfl)

/-- C10: every response of the handler satisfies the envelope invariant —
either code 200 with exactly the keys `descripcion` and `status` (the
latter "success"), or code 500 with exactly the keys `error` and `status`
(the latter "error"); no response carries both a `descripcion` and an
`error` key. -/
theorem analizar_envelope_invariant {α : Type}
    (imageOpen : PyBytes → Except String α)
    (generateContent : String → α → Except String String)
    (requestJson : Option (List (String × String))) :
    (((analizar imageOpen generateContent requestJson).1.code = 200 ∧
      (analizar imageOpen generateContent requestJson).1.body.map Prod.fst =
        ["descripcion", "status"] ∧
      (analizar imageOpen generateContent requestJson).1.body.lookup "status" =
        some "success") ∨
     ((analizar imageOpen generateContent requestJson).1.code = 500 ∧
      (analizar imageOpen generateContent requestJson).1.body.map Prod.fst =
        ["error", "status"] ∧
      (analizar imageOpen generateContent requestJson).1.body.lookup "status" =
        some "error")) ∧
    ¬("descripcion" ∈
        (analizar imageOpen generateContent requestJson).1.body.map Prod.fst ∧
      "error" ∈
        (analizar imageOpen generateContent requestJson).1.body.map Prod.fst) := by
  cases h : analizarPipeline imageOpen generateContent requestJson with
  | ok d =>
    have hr : analizar imageOpen generateContent requestJson =
        (⟨200, [("descripcion", d), ("status", "success")]⟩, []) := by
      simp only [analizar, h]
    rw [hr]
    refine ⟨Or.inl ⟨rfl, rfl, rfl⟩, fun hcon => ?_⟩
    have h2 : "error" ∈ (["descripcion", "status"] : List String) := hcon.2
    exact absurd h2 (by decide)
  | error e =>
    have hr : analizar imageOpen generateContent requestJson =
        (⟨500, [("error", e), ("status", "error")]⟩, ["Error: " ++ e]) := by
      simp only [analizar, h]
    rw [hr]
    refine ⟨Or.inr ⟨rfl, rfl, rfl⟩, fun hcon => ?_⟩
    have h1 : "descripcion" ∈ (["error", "status"] : List String) := hcon.1
    exact absurd h1 (by decide)
